import Mathlib

/-!
Verification development for the GhostDock registry (GhostKellz/ghostdock).

This file gives a shallow embedding, in Lean 4, of the registry core of the
Rust sources: the pure validators of `src/utils.rs`, the error type of
`src/error.rs`, the SQLite-backed metadata queries of
`src/database/queries.rs` against the schema declared in
`src/database/migrations.rs`, and the HTTP handlers of
`src/handlers/registry.rs` and `src/handlers/manifest.rs` that the router in
`src/server.rs` wires to the Docker Registry v2 endpoints.

Modelling conventions:
* Bytes are `Nat` values (< 256 in any real input); byte strings are `List Nat`.
* UUIDs (`uuid::Uuid::new_v4`) are modelled as fresh `Nat` identifiers drawn
  from a counter carried in the state.  Path-position UUIDs arrive already
  parsed; the `Uuid::parse_str` failure branch (400) is not claim-relevant.
* Timestamps are `Nat` seconds; the state carries `now` (`chrono::Utc::now`).
  Row timestamp columns that no handler ever reads back are dropped.
* The external `sha2` crate is modelled by an executable SHA-256 implementation
  (checked against standard test vectors during development).
* `serde_json` is modelled by an executable JSON parser over a `Json` type;
  numeric tokens are kept verbatim (no handler reads a number), and for
  duplicate object keys the later value wins, as in `serde_json`.
* The SQLite database is a record of rows per table.  Each embedded
  `sqlx::query` INSERT is guarded by a check, derived from the schema of
  `migrations.rs`, that SQLite itself performs: every NOT NULL column without
  a DEFAULT must be assigned, an `ON CONFLICT (cols)` target must match a
  declared uniqueness constraint, and the target table must exist.  These
  checks matter: the `repositories` INSERT omits the NOT NULL `owner_id`
  column, the `manifests` INSERT omits the NOT NULL `schema_version` column
  and names the conflict target `(repository_id, digest)` although the only
  unique constraints of `manifests` are `id` and `digest`, and the
  `manifest_blobs` table is never created by `create_tables`.  Foreign-key
  enforcement (`PRAGMA foreign_keys = ON`, the sqlx default) is modelled from
  the declarations of `migrations.rs` where it decides behaviour: the
  `DELETE FROM blobs` of `delete_blob` runs while `repository_blobs` rows
  still reference the row and is rejected.  Child-side FK checks on the
  INSERT statements are not modelled: every embedded INSERT either assigns
  parent ids whose rows exist on the paths the claims exercise, or is dead
  code behind an already-failing statement.
* `src/storage.rs` is declared in `lib.rs` but absent from the sources; the
  Content Store is therefore modelled from the spec (see the doc comments of
  the `storage*` definitions).
-/

/- ## Bytes, hex, UTF-8 -/

/-- Lowercase hex digit for a value below 16, as produced by Rust
`format!("{:x}", _)`: `0`-`9` then `a`-`f`. -/
def hexDigitChar (n : Nat) : Char := if n < 10 then Char.ofNat (48 + n) else Char.ofNat (87 + n)

/-- Two lowercase hex characters of one byte (high nibble first). -/
def byteHexChars (b : Nat) : List Char := [hexDigitChar (b / 16 % 16), hexDigitChar (b % 16)]

/-- Lowercase hex characters of a byte sequence. -/
def bytesHexChars (bs : List Nat) : List Char := bs.flatMap byteHexChars

/-- Lowercase hex string of a byte sequence. -/
def bytesToHex (bs : List Nat) : String := String.mk (bytesHexChars bs)

/-- ASCII hexadecimal digit, as Rust `char::is_ascii_hexdigit`:
`0`-`9`, `a`-`f` and also the uppercase `A`-`F`. -/
def isAsciiHexdigitChar (c : Char) : Bool :=
  (decide (c ≥ '0') && decide (c ≤ '9')) ||
  (decide (c ≥ 'a') && decide (c ≤ 'f')) ||
  (decide (c ≥ 'A') && decide (c ≤ 'F'))

/-- Lowercase-only hexadecimal digit: `0`-`9`, `a`-`f`. -/
def isLowerHexChar (c : Char) : Bool :=
  (decide (c ≥ '0') && decide (c ≤ '9')) || (decide (c ≥ 'a') && decide (c ≤ 'f'))

/-- UTF-8 encoding of one scalar value (1 to 4 bytes). -/
def charUtf8 (c : Char) : List Nat :=
  let n := c.toNat
  if n < 128 then [n]
  else if n < 2048 then [192 + n / 64, 128 + n % 64]
  else if n < 65536 then [224 + n / 4096, 128 + n / 64 % 64, 128 + n % 64]
  else [240 + n / 262144, 128 + n / 4096 % 64, 128 + n / 64 % 64, 128 + n % 64]

/-- UTF-8 bytes of a string, as Rust `str::as_bytes` of the same text. -/
def utf8Encode (s : String) : List Nat := s.data.flatMap charUtf8

/-- Byte length of a string, as Rust `str::len`. -/
def utf8Length (s : String) : Nat := (utf8Encode s).length

/- ## SHA-256 (model of the external `sha2` crate) -/

/-- Truncation to a 32-bit word. -/
def w32 (n : Nat) : Nat := n % 4294967296

/-- Right rotation of a 32-bit word by `n` places. -/
def rotr32 (n x : Nat) : Nat := (x >>> n) + ((x % (2 ^ n)) <<< (32 - n))

/-- Bitwise complement of a 32-bit word. -/
def not32 (x : Nat) : Nat := 4294967295 - x

/-- SHA-256 Σ0. -/
def bigSigma0 (x : Nat) : Nat := rotr32 2 x ^^^ rotr32 13 x ^^^ rotr32 22 x

/-- SHA-256 Σ1. -/
def bigSigma1 (x : Nat) : Nat := rotr32 6 x ^^^ rotr32 11 x ^^^ rotr32 25 x

/-- SHA-256 σ0. -/
def smallSigma0 (x : Nat) : Nat := rotr32 7 x ^^^ rotr32 18 x ^^^ (x >>> 3)

/-- SHA-256 σ1. -/
def smallSigma1 (x : Nat) : Nat := rotr32 17 x ^^^ rotr32 19 x ^^^ (x >>> 10)

/-- SHA-256 choice function. -/
def shaCh (x y z : Nat) : Nat := (x &&& y) ^^^ (not32 x &&& z)

/-- SHA-256 majority function. -/
def shaMaj (x y z : Nat) : Nat := (x &&& y) ^^^ (x &&& z) ^^^ (y &&& z)

/-- The 64 SHA-256 round constants (FIPS 180-4, in decimal: the first is
0x428a2f98, the last 0xc67178f2). -/
def shaK : List Nat :=
  [1116352408, 1899447441, 3049323471, 3921009573, 961987163, 1508970993,
   2453635748, 2870763221, 3624381080, 310598401, 607225278, 1426881987,
   1925078388, 2162078206, 2614888103, 3248222580, 3835390401, 4022224774,
   264347078, 604807628, 770255983, 1249150122, 1555081692, 1996064986,
   2554220882, 2821834349, 2952996808, 3210313671, 3336571891, 3584528711,
   113926993, 338241895, 666307205, 773529912, 1294757372, 1396182291,
   1695183700, 1986661051, 2177026350, 2456956037, 2730485921, 2820302411,
   3259730800, 3345764771, 3516065817, 3600352804, 4094571909, 275423344,
   430227734, 506948616, 659060556, 883997877, 958139571, 1322822218,
   1537002063, 1747873779, 1955562222, 2024104815, 2227730452, 2361852424,
   2428436474, 2756734187, 3204031479, 3329325298]

/-- Message padding: append `0x80`, zeros to 56 mod 64, then the bit length
as 8 big-endian bytes. -/
def shaPad (msg : List Nat) : List Nat :=
  let len := msg.length
  let bitLen := len * 8
  let padZeros := (55 + 64 - (len % 64)) % 64
  msg ++ [0x80] ++ List.replicate padZeros 0 ++
    [(bitLen >>> 56) % 256, (bitLen >>> 48) % 256, (bitLen >>> 40) % 256, (bitLen >>> 32) % 256,
     (bitLen >>> 24) % 256, (bitLen >>> 16) % 256, (bitLen >>> 8) % 256, bitLen % 256]

/-- Split a padded message into 64-byte chunks (fuelled recursion). -/
def chunk64 : Nat → List Nat → List (List Nat)
  | 0, _ => []
  | _, [] => []
  | fuel + 1, bs => bs.take 64 :: chunk64 fuel (bs.drop 64)

/-- Big-endian 32-bit words from bytes (fuelled recursion). -/
def toWords : Nat → List Nat → List Nat
  | 0, _ => []
  | _, [] => []
  | fuel + 1, b0 :: b1 :: b2 :: b3 :: rest =>
      ((b0 <<< 24) + (b1 <<< 16) + (b2 <<< 8) + b3) :: toWords fuel rest
  | _ + 1, _ => []

/-- Extend the 16 chunk words by `i` further message-schedule words. -/
def extendSched (ws : List Nat) (i : Nat) : List Nat :=
  match i with
  | 0 => ws
  | i + 1 =>
      let ws := extendSched ws i
      let n := ws.length
      ws ++ [w32 (smallSigma1 (ws.getD (n - 2) 0) + ws.getD (n - 7) 0 +
                  smallSigma0 (ws.getD (n - 15) 0) + ws.getD (n - 16) 0)]

/-- The eight SHA-256 working variables. -/
structure H8 where
  a : Nat
  b : Nat
  c : Nat
  d : Nat
  e : Nat
  f : Nat
  g : Nat
  h : Nat
deriving DecidableEq

/-- One round of the SHA-256 compression function. -/
def compressStep (sched : List Nat) (st : H8) (i : Nat) : H8 :=
  let t1 := w32 (st.h + bigSigma1 st.e + shaCh st.e st.f st.g + shaK.getD i 0 + sched.getD i 0)
  let t2 := w32 (bigSigma0 st.a + shaMaj st.a st.b st.c)
  { a := w32 (t1 + t2), b := st.a, c := st.b, d := st.c,
    e := w32 (st.d + t1), f := st.e, g := st.f, h := st.g }

/-- Process one 64-byte chunk. -/
def processChunk (st : H8) (chunk : List Nat) : H8 :=
  let sched := extendSched (toWords 16 chunk) 48
  let r := (List.range 64).foldl (compressStep sched) st
  { a := w32 (st.a + r.a), b := w32 (st.b + r.b), c := w32 (st.c + r.c), d := w32 (st.d + r.d),
    e := w32 (st.e + r.e), f := w32 (st.f + r.f), g := w32 (st.g + r.g), h := w32 (st.h + r.h) }

/-- The SHA-256 initial hash value (FIPS 180-4, in decimal: 0x6a09e667 down
to 0x5be0cd19). -/
def shaInit : H8 :=
  { a := 1779033703, b := 3144134277, c := 1013904242, d := 2773480762,
    e := 1359893119, f := 2600822924, g := 528734635, h := 1541459225 }

/-- Big-endian bytes of a 32-bit word. -/
def wordBytes (w : Nat) : List Nat := [(w >>> 24) % 256, (w >>> 16) % 256, (w >>> 8) % 256, w % 256]

/-- SHA-256 of a byte sequence, as 32 bytes. -/
def sha256 (msg : List Nat) : List Nat :=
  let padded := shaPad msg
  let st := (chunk64 (padded.length / 64 + 1) padded).foldl processChunk shaInit
  wordBytes st.a ++ wordBytes st.b ++ wordBytes st.c ++ wordBytes st.d ++
  wordBytes st.e ++ wordBytes st.f ++ wordBytes st.g ++ wordBytes st.h

/- ## JSON values (model of `serde_json::Value`) -/

/-- JSON value.  Numeric tokens are kept verbatim as their source text: no
handler in the registry core ever reads a numeric field, only string fields
(`mediaType`, `config.digest`, `layers[].digest`) and array fields. -/
inductive Json where
  | null
  | bool (b : Bool)
  | num (raw : String)
  | str (s : String)
  | arr (elems : List Json)
  | obj (fields : List (String × Json))

/-- Object field lookup, as `serde_json::Value::get(key)`.  For duplicate
keys the later value wins, matching `serde_json` map insertion. -/
def Json.getField (j : Json) (key : String) : Option Json :=
  match j with
  | .obj fields => (fields.reverse.find? (fun f => f.1 == key)).map (fun f => f.2)
  | _ => none

/-- `serde_json::Value::as_str`. -/
def Json.asStr (j : Json) : Option String :=
  match j with
  | .str s => some s
  | _ => none

/-- `serde_json::Value::as_array`. -/
def Json.asArray (j : Json) : Option (List Json) :=
  match j with
  | .arr elems => some elems
  | _ => none

/- ## `src/error.rs`: the error type -/

/-- The `Error` enum of `src/error.rs`.  Variants that in Rust wrap a foreign
error value (`sqlx::Error`, `std::io::Error`, ...) carry the foreign error
rendered as a message string; message-struct variants carry their message. -/
inductive Error where
  | Database (msg : String)
  | Io (msg : String)
  | Serialization (msg : String)
  | Config (msg : String)
  | Authentication (msg : String)
  | Authorization (msg : String)
  | Validation (msg : String)
  | Registry (msg : String)
  | Storage (msg : String)
  | Manifest (msg : String)
  | Blob (msg : String)
  | NotFound (resource : String)
  | Conflict (msg : String)
  | Internal (msg : String)
  | BadRequest (msg : String)
  | ServiceUnavailable (msg : String)
  | Jwt (msg : String)
  | HttpClient (msg : String)
  | Toml (msg : String)
  | Generic (msg : String)
deriving DecidableEq

/-- `Error::status_code`.  The catch-all arm maps every remaining variant to
500 INTERNAL_SERVER_ERROR. -/
def Error.status_code (e : Error) : Nat :=
  match e with
  | .Authentication _ => 401
  | .Authorization _ => 403
  | .Validation _ => 400
  | .BadRequest _ => 400
  | .NotFound _ => 404
  | .Conflict _ => 409
  | .ServiceUnavailable _ => 503
  | .Registry _ => 400
  | .Storage _ => 500
  | .Manifest _ => 400
  | .Blob _ => 400
  | _ => 500

/-- `Error::error_code`. -/
def Error.error_code (e : Error) : String :=
  match e with
  | .Database _ => "DATABASE_ERROR"
  | .Io _ => "IO_ERROR"
  | .Serialization _ => "SERIALIZATION_ERROR"
  | .Config _ => "CONFIG_ERROR"
  | .Authentication _ => "AUTHENTICATION_ERROR"
  | .Authorization _ => "AUTHORIZATION_ERROR"
  | .Validation _ => "VALIDATION_ERROR"
  | .Registry _ => "REGISTRY_ERROR"
  | .Storage _ => "STORAGE_ERROR"
  | .Manifest _ => "MANIFEST_ERROR"
  | .Blob _ => "BLOB_ERROR"
  | .NotFound _ => "NOT_FOUND"
  | .Conflict _ => "CONFLICT"
  | .Internal _ => "INTERNAL_ERROR"
  | .BadRequest _ => "BAD_REQUEST"
  | .ServiceUnavailable _ => "SERVICE_UNAVAILABLE"
  | .Jwt _ => "JWT_ERROR"
  | .HttpClient _ => "HTTP_CLIENT_ERROR"
  | .Toml _ => "TOML_ERROR"
  | .Generic _ => "GENERIC_ERROR"

/-- The `thiserror` display string of each variant (`self.to_string()`). -/
def Error.display (e : Error) : String :=
  match e with
  | .Database m => "Database error: " ++ m
  | .Io m => "IO error: " ++ m
  | .Serialization m => "Serialization error: " ++ m
  | .Config m => "Configuration error: " ++ m
  | .Authentication m => "Authentication error: " ++ m
  | .Authorization m => "Authorization error: " ++ m
  | .Validation m => "Validation error: " ++ m
  | .Registry m => "Registry error: " ++ m
  | .Storage m => "Storage error: " ++ m
  | .Manifest m => "Manifest error: " ++ m
  | .Blob m => "Blob error: " ++ m
  | .NotFound r => "Not found: " ++ r
  | .Conflict m => "Conflict: " ++ m
  | .Internal m => "Internal server error: " ++ m
  | .BadRequest m => "Bad request: " ++ m
  | .ServiceUnavailable m => "Service unavailable: " ++ m
  | .Jwt m => "JWT error: " ++ m
  | .HttpClient m => "HTTP client error: " ++ m
  | .Toml m => "TOML parsing error: " ++ m
  | .Generic m => "Generic error: " ++ m

/-- `impl IntoResponse for Error`: the HTTP status together with the JSON body
`{"error": {"code": ..., "message": ...}}`. -/
def Error.into_response (e : Error) : Nat × Json :=
  (e.status_code,
   Json.obj [("error", Json.obj [("code", Json.str e.error_code),
                                 ("message", Json.str e.display)])])

/-- Decidable equality of `Except` results, used to evaluate handler outcomes
on concrete inputs. -/
instance {ε α : Type} [DecidableEq ε] [DecidableEq α] : DecidableEq (Except ε α) := fun a b =>
  match a, b with
  | .ok x, .ok y =>
      if h : x = y then .isTrue (h ▸ rfl) else .isFalse (fun hc => h (Except.ok.inj hc))
  | .error x, .error y =>
      if h : x = y then .isTrue (h ▸ rfl) else .isFalse (fun hc => h (Except.error.inj hc))
  | .ok _, .error _ => .isFalse (fun hc => Except.noConfusion hc)
  | .error _, .ok _ => .isFalse (fun hc => Except.noConfusion hc)

/- ## `src/utils.rs`: validators and digest computation -/

/-- Character class `[a-z0-9]` of the repository-name regex. -/
def isLowerAlnumChar (c : Char) : Bool :=
  (decide (c ≥ 'a') && decide (c ≤ 'z')) || (decide (c ≥ '0') && decide (c ≤ '9'))

/-- Separator class `[._-]` of the repository-name regex. -/
def isSepChar (c : Char) : Bool := c == '.' || c == '_' || c == '-'

/-- Tail of a repository-name component after its first character:
the `([._-][a-z0-9]+)*` part, where a separator must be followed by at least
one `[a-z0-9]`. -/
def repoComponentTail : List Char → Bool
  | [] => true
  | c :: rest =>
      if isLowerAlnumChar c then repoComponentTail rest
      else if isSepChar c then
        match rest with
        | [] => false
        | r :: rest2 => isLowerAlnumChar r && repoComponentTail rest2
      else false

/-- One path component of a repository name: `[a-z0-9]+([._-][a-z0-9]+)*`. -/
def repoComponent (cs : List Char) : Bool :=
  match cs with
  | [] => false
  | c :: rest => isLowerAlnumChar c && repoComponentTail rest

/-- Split on `/`, keeping empty components, as `String::split` with pattern
`/` does (structural recursion so that concrete runs reduce in the kernel). -/
def splitSlash : List Char → List (List Char)
  | [] => [[]]
  | c :: rest =>
      let r := splitSlash rest
      if c == '/' then [] :: r
      else
        match r with
        | [] => [[c]]
        | p :: ps => (c :: p) :: ps

/-- `utils::validate_repository_name`: nonempty, at most 255, and matching
`^[a-z0-9]+([._-][a-z0-9]+)*(/[a-z0-9]+([._-][a-z0-9]+)*)*$`
(components separated by `/`). -/
def validate_repository_name (name : String) : Except Error Unit :=
  if name = "" then .error (Error.BadRequest "Repository name cannot be empty")
  else if name.length > 255 then .error (Error.BadRequest "Repository name too long")
  else if !((splitSlash name.data).all repoComponent) then
    .error (Error.BadRequest
      ("Invalid repository name \x27" ++ name ++
       "\x27: must contain only lowercase letters, numbers, and separators"))
  else .ok ()

/-- Character class `[a-zA-Z0-9._-]` of the tag-name regex. -/
def isTagChar (c : Char) : Bool :=
  (decide (c ≥ 'a') && decide (c ≤ 'z')) || (decide (c ≥ 'A') && decide (c ≤ 'Z')) ||
  (decide (c ≥ '0') && decide (c ≤ '9')) || c == '.' || c == '_' || c == '-'

/-- `utils::validate_tag_name`: nonempty, at most 128, matching `^[a-zA-Z0-9._-]+$`. -/
def validate_tag_name (tag : String) : Except Error Unit :=
  if tag = "" then .error (Error.BadRequest "Tag name cannot be empty")
  else if tag.length > 128 then .error (Error.BadRequest "Tag name too long")
  else if !(tag.data.all isTagChar) then
    .error (Error.BadRequest
      ("Invalid tag name \x27" ++ tag ++
       "\x27: must contain only alphanumeric characters, underscores, periods, and dashes"))
  else .ok ()

/-- `utils::validate_digest`: the string must start with `sha256:`; the rest
must be 64 characters, all satisfying `char::is_ascii_hexdigit` (which accepts
both lowercase and uppercase hex). -/
def validate_digest (digest : String) : Except Error Unit :=
  match digest.data with
  | 's' :: 'h' :: 'a' :: '2' :: '5' :: '6' :: ':' :: hashPart =>
      if hashPart.length ≠ 64 then
        .error (Error.BadRequest "Invalid digest: hash must be 64 characters")
      else if !(hashPart.all isAsciiHexdigitChar) then
        .error (Error.BadRequest "Invalid digest: hash must contain only hexadecimal characters")
      else .ok ()
  | _ => .error (Error.BadRequest "Digest must start with \x27sha256:\x27")

/-- `utils::sha256_digest`: `format!("sha256:{:x}", Sha256::digest(data))`,
the digest rendered as 64 lowercase hex characters. -/
def sha256_digest (data : List Nat) : String := "sha256:" ++ bytesToHex (sha256 data)

/- ## JSON parsing (model of `serde_json::from_str`) -/

/-- The `\x7b` character (left curly brace). -/
def lbraceChar : Char := Char.ofNat 123

/-- The `\x7d` character (right curly brace). -/
def rbraceChar : Char := Char.ofNat 125

/-- The double-quote character. -/
def dquoteChar : Char := Char.ofNat 34

/-- JSON whitespace. -/
def jsonWs (c : Char) : Bool := c == ' ' || c == '\n' || c == '\t' || c == '\r'

/-- Skip leading JSON whitespace. -/
def skipWs : List Char → List Char
  | [] => []
  | c :: rest => if jsonWs c then skipWs rest else c :: rest

/-- Value of one hex digit, either case. -/
def hexVal (c : Char) : Option Nat :=
  if decide (c ≥ '0') && decide (c ≤ '9') then some (c.toNat - 48)
  else if decide (c ≥ 'a') && decide (c ≤ 'f') then some (c.toNat - 87)
  else if decide (c ≥ 'A') && decide (c ≤ 'F') then some (c.toNat - 55)
  else none

/-- Body of a JSON string after the opening quote: returns the decoded
characters and the input after the closing quote.  Supported escapes are the
JSON ones; `\uXXXX` decodes a non-surrogate scalar (surrogate pairs are not
claim-relevant and make the model reject); raw control characters reject. -/
def parseStringBody : Nat → List Char → Option (List Char × List Char)
  | 0, _ => none
  | _, [] => none
  | fuel + 1, c :: rest =>
    if c == dquoteChar then some ([], rest)
    else if c == '\\' then
      match rest with
      | [] => none
      | e :: rest2 =>
        let dec : Option (Char × List Char) :=
          if e == dquoteChar then some (dquoteChar, rest2)
          else if e == '\\' then some ('\\', rest2)
          else if e == '/' then some ('/', rest2)
          else if e == 'n' then some ('\n', rest2)
          else if e == 't' then some ('\t', rest2)
          else if e == 'r' then some ('\r', rest2)
          else if e == 'b' then some (Char.ofNat 8, rest2)
          else if e == 'f' then some (Char.ofNat 12, rest2)
          else if e == 'u' then
            match rest2 with
            | h1 :: h2 :: h3 :: h4 :: rest3 =>
              match hexVal h1, hexVal h2, hexVal h3, hexVal h4 with
              | some v1, some v2, some v3, some v4 =>
                let v := v1 * 4096 + v2 * 256 + v3 * 16 + v4
                if 55296 ≤ v && v ≤ 57343 then none
                else some (Char.ofNat v, rest3)
              | _, _, _, _ => none
            | _ => none
          else none
        match dec with
        | some (ch, r) => (parseStringBody fuel r).map (fun p => (ch :: p.1, p.2))
        | none => none
    else if c.toNat < 32 then none
    else (parseStringBody fuel rest).map (fun p => (c :: p.1, p.2))

/-- Longest run of leading decimal digits. -/
def digitsSpan : List Char → List Char × List Char
  | [] => ([], [])
  | c :: rest =>
      if c.isDigit then
        let p := digitsSpan rest
        (c :: p.1, p.2)
      else ([], c :: rest)

/-- Optional fraction part of a JSON number token. -/
def parseFracPart (acc : List Char) (cs : List Char) : Option (List Char × List Char) :=
  match cs with
  | '.' :: rest =>
      (match digitsSpan rest with
       | ([], _) => none
       | (ds, r) => some (acc ++ '.' :: ds, r))
  | _ => some (acc, cs)

/-- Optional exponent part of a JSON number token. -/
def parseExpPart (acc : List Char) (cs : List Char) : Option (List Char × List Char) :=
  match cs with
  | [] => some (acc, [])
  | c :: rest =>
      if c == 'e' || c == 'E' then
        let signSplit : List Char × List Char :=
          match rest with
          | s :: r => if s == '+' || s == '-' then ([s], r) else ([], rest)
          | [] => ([], [])
        match digitsSpan signSplit.2 with
        | ([], _) => none
        | (ds, r2) => some (acc ++ c :: (signSplit.1 ++ ds), r2)
      else some (acc, cs)

/-- A JSON number token per the JSON grammar:
`-?(0|[1-9][0-9]*)(\.[0-9]+)?([eE][+-]?[0-9]+)?`, returned verbatim. -/
def parseNumberToken (cs : List Char) : Option (List Char × List Char) :=
  let negSplit : List Char × List Char :=
    match cs with
    | '-' :: r => (['-'], r)
    | _ => ([], cs)
  match negSplit.2 with
  | [] => none
  | c :: rest =>
      if c == '0' then
        match parseFracPart (negSplit.1 ++ [c]) rest with
        | none => none
        | some (acc2, r2) => parseExpPart acc2 r2
      else if c.isDigit then
        let ds := digitsSpan rest
        match parseFracPart (negSplit.1 ++ c :: ds.1) ds.2 with
        | none => none
        | some (acc2, r2) => parseExpPart acc2 r2
      else none

mutual

/-- One JSON value, fuelled; returns the value and the remaining input. -/
def parseVal : Nat → List Char → Option (Json × List Char)
  | 0, _ => none
  | fuel + 1, cs =>
    match skipWs cs with
    | [] => none
    | 'n' :: 'u' :: 'l' :: 'l' :: rest => some (.null, rest)
    | 't' :: 'r' :: 'u' :: 'e' :: rest => some (.bool true, rest)
    | 'f' :: 'a' :: 'l' :: 's' :: 'e' :: rest => some (.bool false, rest)
    | '[' :: rest =>
        (match skipWs rest with
         | ']' :: r => some (.arr [], r)
         | r => (parseElems fuel r).map (fun p => (Json.arr p.1, p.2)))
    | c :: rest =>
        if c == dquoteChar then
          (parseStringBody (rest.length + 1) rest).map (fun p => (Json.str (String.mk p.1), p.2))
        else if c == lbraceChar then
          match skipWs rest with
          | [] => none
          | c2 :: r2 =>
            if c2 == rbraceChar then some (.obj [], r2)
            else (parseFields fuel (c2 :: r2)).map (fun p => (Json.obj p.1, p.2))
        else
          (parseNumberToken (c :: rest)).map (fun p => (Json.num (String.mk p.1), p.2))

/-- Nonempty comma-separated array elements up to the closing bracket. -/
def parseElems : Nat → List Char → Option (List Json × List Char)
  | 0, _ => none
  | fuel + 1, cs =>
    match parseVal fuel cs with
    | none => none
    | some (v, rem) =>
      match skipWs rem with
      | ',' :: r => (parseElems fuel r).map (fun p => (v :: p.1, p.2))
      | ']' :: r => some ([v], r)
      | _ => none

/-- Nonempty comma-separated object members up to the closing brace. -/
def parseFields : Nat → List Char → Option (List (String × Json) × List Char)
  | 0, _ => none
  | fuel + 1, cs =>
    match skipWs cs with
    | [] => none
    | k :: rest =>
      if k == dquoteChar then
        match parseStringBody (rest.length + 1) rest with
        | none => none
        | some (kcs, rem) =>
          match skipWs rem with
          | ':' :: r2 =>
            (match parseVal fuel r2 with
             | none => none
             | some (v, rem2) =>
               match skipWs rem2 with
               | ',' :: r3 => (parseFields fuel r3).map (fun p => ((String.mk kcs, v) :: p.1, p.2))
               | c3 :: r3 =>
                   if c3 == rbraceChar then some ([(String.mk kcs, v)], r3) else none
               | [] => none)
          | _ => none
      else none

end

/-- `serde_json::from_str`: parse one value and require only whitespace after
it.  The fuel `length + 1` dominates the nesting depth, which consumes at
least one input character per level. -/
def parseJson (s : String) : Option Json :=
  match parseVal (s.data.length + 1) s.data with
  | some (j, rem) => if skipWs rem = [] then some j else none
  | none => none

/- ## Data model (`src/types.rs` rows, `src/server.rs` state) -/

/-- A `repositories` row (timestamp and counter columns that no embedded
handler reads back are dropped). -/
structure Repository where
  id : Nat
  name : String
  description : String
  is_public : Bool
deriving DecidableEq

/-- A `blobs` row. -/
structure Blob where
  id : Nat
  digest : String
  media_type : String
  size : Int
  storage_path : String
deriving DecidableEq

/-- A `repository_blobs` membership row. -/
structure RepositoryBlob where
  id : Nat
  repository_id : Nat
  blob_id : Nat
deriving DecidableEq

/-- A `manifests` row. -/
structure Manifest where
  id : Nat
  repository_id : Nat
  digest : String
  media_type : String
  content : String
  size : Int
deriving DecidableEq

/-- A `tags` row. -/
structure Tag where
  id : Nat
  repository_id : Nat
  name : String
  manifest_id : Nat
deriving DecidableEq

/-- A `manifest_blobs` row as the INSERT of `link_manifest_to_blob` would
shape it.  `create_tables` never creates this table, so no reachable state
ever holds such a row. -/
structure ManifestBlob where
  id : Nat
  manifest_id : Nat
  blob_id : Nat
deriving DecidableEq

/-- An `upload_sessions` row. -/
structure UploadSession where
  id : Nat
  uuid : Nat
  repository_id : Nat
  uploaded_size : Int
  storage_path : String
  expires_at : Nat
deriving DecidableEq

/-- The observable server state: the SQLite tables of `migrations.rs`, the
Content Store bytes (digest-keyed), the current time, and a counter supplying
fresh identifiers (modelling `Uuid::new_v4`). -/
structure RegState where
  repositories : List Repository
  blobs : List Blob
  repository_blobs : List RepositoryBlob
  manifests : List Manifest
  tags : List Tag
  manifest_blobs : List ManifestBlob
  upload_sessions : List UploadSession
  storage : List (String × List Nat)
  now : Nat
  next_id : Nat
deriving DecidableEq

/-- Body of an HTTP response. -/
inductive RespBody where
  | empty
  | bytes (bs : List Nat)
  | text (s : String)
deriving DecidableEq

/-- An HTTP response: status, headers in insertion order, body. -/
structure HttpResponse where
  status : Nat
  headers : List (String × String)
  body : RespBody
deriving DecidableEq

/-- First header with the given name. -/
def HttpResponse.header (r : HttpResponse) (name : String) : Option String :=
  (r.headers.find? (fun h => h.1 == name)).map (fun h => h.2)

/- ## Schema of `src/database/migrations.rs` and SQLite insert acceptance -/

/-- What SQLite checks about a table when preparing and running an INSERT:
the NOT NULL columns without a DEFAULT (which the INSERT must assign) and the
declared uniqueness constraints (one of which an `ON CONFLICT` target must
match exactly). -/
structure TableSchema where
  requiredCols : List String
  uniqueSets : List (List String)
deriving DecidableEq

/-- The tables `create_tables` creates, transcribed from `migrations.rs`.
Note for `manifests`: `digest` alone is UNIQUE and `schema_version` is
NOT NULL without a DEFAULT; there is no uniqueness constraint on
`(repository_id, digest)`.  `manifest_blobs` is absent. -/
def ghostdockSchema : List (String × TableSchema) :=
  [("users",
    { requiredCols := ["id", "username", "email"],
      uniqueSets := [["id"], ["username"], ["email"]] }),
   ("repositories",
    { requiredCols := ["id", "name", "owner_id"],
      uniqueSets := [["id"], ["namespace", "name"]] }),
   ("manifests",
    { requiredCols := ["id", "repository_id", "digest", "media_type", "schema_version",
                       "content", "size"],
      uniqueSets := [["id"], ["digest"]] }),
   ("tags",
    { requiredCols := ["id", "repository_id", "name", "manifest_id"],
      uniqueSets := [["id"], ["repository_id", "name"]] }),
   ("blobs",
    { requiredCols := ["id", "digest", "media_type", "size", "storage_path"],
      uniqueSets := [["id"], ["digest"]] }),
   ("repository_blobs",
    { requiredCols := ["id", "repository_id", "blob_id"],
      uniqueSets := [["id"], ["repository_id", "blob_id"]] }),
   ("upload_sessions",
    { requiredCols := ["id", "uuid", "repository_id", "storage_path", "expires_at"],
      uniqueSets := [["id"], ["uuid"]] })]

/-- Whether SQLite accepts an INSERT statement against `ghostdockSchema`:
the table must exist, every required column must be assigned, and an
`ON CONFLICT` target must match a declared uniqueness constraint. -/
def insertAccepted (table : String) (cols : List String)
    (conflictTarget : Option (List String)) : Bool :=
  match (ghostdockSchema.find? (fun t => t.1 == table)).map (fun t => t.2) with
  | none => false
  | some ts =>
      ts.requiredCols.all (fun c => cols.contains c) &&
      (match conflictTarget with
       | none => true
       | some tgt => ts.uniqueSets.any (fun u => u == tgt))

/-- Column list of the `repositories` INSERT in `get_or_create_repository`
(`queries.rs`); it omits the NOT NULL `owner_id`. -/
def repositoriesInsertCols : List String :=
  ["id", "name", "description", "is_public", "created_at", "updated_at"]

/-- Column list of the `manifests` INSERT in `put_manifest` (`manifest.rs`);
it omits the NOT NULL `schema_version`. -/
def manifestsInsertCols : List String :=
  ["id", "repository_id", "digest", "media_type", "content", "size", "created_at"]

/-- `ON CONFLICT` target of the `manifests` INSERT in `put_manifest`. -/
def manifestsConflictTarget : List String := ["repository_id", "digest"]

/-- Column list of the `tags` INSERT in `put_manifest`. -/
def tagsInsertCols : List String :=
  ["id", "repository_id", "name", "manifest_id", "created_at", "updated_at"]

/-- `ON CONFLICT` target of the `tags` INSERT in `put_manifest`. -/
def tagsConflictTarget : List String := ["repository_id", "name"]

/-- Column list of the `blobs` INSERT in `complete_blob_upload`. -/
def blobsInsertCols : List String :=
  ["id", "digest", "media_type", "size", "storage_path", "created_at"]

/-- Column list of the `repository_blobs` INSERT in `complete_blob_upload`. -/
def repositoryBlobsInsertCols : List String :=
  ["id", "repository_id", "blob_id", "created_at"]

/-- Column list of the `upload_sessions` INSERT in `initiate_blob_upload`. -/
def uploadSessionsInsertCols : List String :=
  ["id", "uuid", "repository_id", "uploaded_size", "storage_path", "created_at",
   "updated_at", "expires_at"]

/-- The `FOREIGN KEY (col) REFERENCES parent (id)` clauses of
`migrations.rs`, as `(child table, child column, parent table)`.  The pool is
opened with `SqlitePool::connect("sqlite:…")` and sqlx enables
`PRAGMA foreign_keys = ON` by default, so SQLite rejects a DELETE of a parent
row while any child row still references it (the declarations carry no
`ON DELETE` action, so the default NO ACTION applies). -/
def ghostdockForeignKeys : List (String × String × String) :=
  [("repositories", "owner_id", "users"),
   ("manifests", "repository_id", "repositories"),
   ("tags", "repository_id", "repositories"),
   ("tags", "manifest_id", "manifests"),
   ("repository_blobs", "repository_id", "repositories"),
   ("repository_blobs", "blob_id", "blobs"),
   ("upload_sessions", "repository_id", "repositories")]

/-- Column list of the `manifest_blobs` INSERT in `link_manifest_to_blob`. -/
def manifestBlobsInsertCols : List String :=
  ["id", "manifest_id", "blob_id", "created_at"]

/- ## Content Store (spec-modelled) -/

/-- Modelled from the spec: `Storage::get_blob` of the absent `src/storage.rs`
(spec §4.2 `getBlob(digest) → bytes | NotFound`): the bytes at the canonical
location for `digest`, if any.  I/O failure is not modelled. -/
def storageGetBlob (s : RegState) (digest : String) : Option (List Nat) :=
  (s.storage.find? (fun e => e.1 == digest)).map (fun e => e.2)

/-- Modelled from the spec: `Storage::put_blob` (spec §4.2 `putBlob`): verify
`sha256(bytes) == digest`, succeed without rewrite when the digest is already
present, store the bytes otherwise. -/
def storagePutBlob (s : RegState) (digest : String) (bytes : List Nat) :
    Except Error RegState :=
  if sha256_digest bytes ≠ digest then
    .error (Error.Storage "digest mismatch")
  else if s.storage.any (fun e => e.1 == digest) then .ok s
  else .ok { s with storage := s.storage ++ [(digest, bytes)] }

/-- Modelled from the spec: `Storage::delete_blob` (spec §4.2
`deleteBlob(digest) → () | NotFound`): remove the bytes at the canonical
location, or fail when absent. -/
def storageDeleteBlob (s : RegState) (digest : String) : Except Error RegState :=
  if s.storage.any (fun e => e.1 == digest) then
    .ok { s with storage := s.storage.filter (fun e => e.1 != digest) }
  else .error (Error.Storage "blob not found")

/- ## `src/database/queries.rs` -/

/-- `queries::get_repository_by_name`: first `repositories` row with the
name; a missing row is mapped to `NotFound`. -/
def get_repository_by_name (s : RegState) (name : String) : Except Error Repository :=
  match s.repositories.find? (fun r => r.name == name) with
  | some r => .ok r
  | none => .error (Error.NotFound ("Repository \x27" ++ name ++ "\x27 not found"))

/-- `queries::get_or_create_repository`: return the existing row, else INSERT
one.  The INSERT assigns `(id, name, description, is_public, created_at,
updated_at)` and therefore omits the NOT NULL `owner_id` column of the
schema, so SQLite rejects it and the create branch always fails. -/
def get_or_create_repository (s : RegState) (name : String) :
    Except Error Repository × RegState :=
  match get_repository_by_name s name with
  | .ok repo => (.ok repo, s)
  | .error _ =>
      if insertAccepted "repositories" repositoriesInsertCols none then
        let repo : Repository := { id := s.next_id, name := name, description := "",
                                   is_public := false }
        (.ok repo, { s with repositories := s.repositories ++ [repo],
                            next_id := s.next_id + 1 })
      else
        (.error (Error.Database
          "error returned from database: NOT NULL constraint failed: repositories.owner_id"), s)

/-- `queries::get_blob_by_digest`: the `blobs ⋈ repository_blobs` join —
a blob with the digest that has a membership edge to the repository. -/
def get_blob_by_digest (s : RegState) (repository_id : Nat) (digest : String) :
    Except Error Blob :=
  match s.blobs.find? (fun b => b.digest == digest &&
      s.repository_blobs.any (fun rb => rb.blob_id == b.id &&
                                        rb.repository_id == repository_id)) with
  | some b => .ok b
  | none => .error (Error.NotFound ("Blob \x27" ++ digest ++ "\x27 not found"))

/-- `queries::get_manifest_by_digest`: the `manifests` row keyed by
`(repository_id, digest)`. -/
def get_manifest_by_digest (s : RegState) (repository_id : Nat) (digest : String) :
    Except Error Manifest :=
  match s.manifests.find? (fun m => m.repository_id == repository_id &&
                                    m.digest == digest) with
  | some m => .ok m
  | none => .error (Error.NotFound ("Manifest \x27" ++ digest ++ "\x27 not found"))

/-- `queries::get_manifest_by_tag`: the `manifests ⋈ tags` join on
`manifest_id` for `(repository_id, tag name)`. -/
def get_manifest_by_tag (s : RegState) (repository_id : Nat) (tag : String) :
    Except Error Manifest :=
  match s.manifests.find? (fun m => s.tags.any (fun t =>
      t.repository_id == repository_id && t.name == tag && t.manifest_id == m.id)) with
  | some m => .ok m
  | none => .error (Error.NotFound ("Tag \x27" ++ tag ++ "\x27 not found"))

/-- `queries::get_upload_session`: the `upload_sessions` row with the uuid
that has not expired (`expires_at > now`). -/
def get_upload_session (s : RegState) (uuid : Nat) : Except Error UploadSession :=
  match s.upload_sessions.find? (fun u => u.uuid == uuid &&
                                          decide (u.expires_at > s.now)) with
  | some u => .ok u
  | none => .error (Error.NotFound "Upload session not found or expired")

/-- `queries::cleanup_upload_session`: DELETE the `upload_sessions` row with
the uuid (scratch files are left behind, as the source notes in a TODO). -/
def cleanup_upload_session (s : RegState) (uuid : Nat) : Except Error Unit × RegState :=
  (.ok (), { s with upload_sessions := s.upload_sessions.filter (fun u => u.uuid != uuid) })

/- ## `src/handlers/registry.rs`: blob and upload handlers -/

/-- `registry::get_blob` (`GET /v2/:name/blobs/:digest`): validate the inputs,
read the bytes from the Content Store by digest alone — no repository lookup
and no `repository_blobs` membership check — and answer 200 with the bytes or
`NotFound` (404). -/
def get_blob (s : RegState) (name digest : String) :
    Except Error HttpResponse × RegState :=
  match validate_repository_name name with
  | .error e => (.error e, s)
  | .ok _ =>
  match validate_digest digest with
  | .error e => (.error e, s)
  | .ok _ =>
  match storageGetBlob s digest with
  | some data =>
      (.ok { status := 200,
             headers := [("content-type", "application/octet-stream"),
                         ("docker-content-digest", digest),
                         ("content-length", toString data.length)],
             body := .bytes data }, s)
  | none => (.error (Error.NotFound ("blob " ++ digest)), s)

/-- `registry::head_blob` (`HEAD /v2/:name/blobs/:digest`): validate, require
the repository row, require the blob joined through `repository_blobs`, and
answer 200 with the metadata headers. -/
def head_blob (s : RegState) (name digest : String) :
    Except Error HttpResponse × RegState :=
  match validate_repository_name name with
  | .error e => (.error e, s)
  | .ok _ =>
  match validate_digest digest with
  | .error e => (.error e, s)
  | .ok _ =>
  match get_repository_by_name s name with
  | .error e => (.error e, s)
  | .ok repo =>
  match get_blob_by_digest s repo.id digest with
  | .error e => (.error e, s)
  | .ok blob =>
      (.ok { status := 200,
             headers := [("content-type", blob.media_type),
                         ("content-length", toString blob.size),
                         ("Docker-Content-Digest", digest)],
             body := .empty }, s)

/-- `registry::delete_blob` (`DELETE /v2/:name/blobs/:digest`): validate,
require the repository and the joined blob, delete the stored bytes, then
`DELETE FROM blobs WHERE id = $1` before deleting this repository's
`repository_blobs` edge.  With `PRAGMA foreign_keys = ON` (the sqlx default)
SQLite rejects that DELETE while any `repository_blobs.blob_id` still
references the row — and this repository's own edge, which
`get_blob_by_digest` just required, is still present — so the handler
answers 500 with the `blobs` row and every edge intact, the stored bytes
already destroyed.  The edge DELETE and the 202 answer are dead code,
transcribed nonetheless. -/
def delete_blob (s : RegState) (name digest : String) :
    Except Error HttpResponse × RegState :=
  match validate_repository_name name with
  | .error e => (.error e, s)
  | .ok _ =>
  match validate_digest digest with
  | .error e => (.error e, s)
  | .ok _ =>
  match get_repository_by_name s name with
  | .error e => (.error e, s)
  | .ok repo =>
  match get_blob_by_digest s repo.id digest with
  | .error e => (.error e, s)
  | .ok blob =>
  match storageDeleteBlob s digest with
  | .error e => (.error e, s)
  | .ok s1 =>
  if ghostdockForeignKeys.contains ("repository_blobs", "blob_id", "blobs") &&
     s1.repository_blobs.any (fun rb => rb.blob_id == blob.id) then
    (.error (Error.Database "error returned from database: FOREIGN KEY constraint failed"), s1)
  else
  let s2 := { s1 with blobs := s1.blobs.filter (fun b => b.id != blob.id) }
  let remainingEdges :=
    s2.repository_blobs.filter (fun rb => !(rb.repository_id == repo.id && rb.blob_id == blob.id))
  let s3 := { s2 with repository_blobs := remainingEdges }
  (.ok { status := 202, headers := [], body := .empty }, s3)

/-- `registry::initiate_blob_upload` (`POST /v2/:name/blobs/uploads/`):
validate, get-or-create the repository (the create branch always fails, see
`get_or_create_repository`), INSERT an `upload_sessions` row with
`uploaded_size = 0` and a 24-hour expiry, and answer 202 with the upload
location and `Range: 0-0`. -/
def initiate_blob_upload (s : RegState) (name : String) :
    Except Error HttpResponse × RegState :=
  match validate_repository_name name with
  | .error e => (.error e, s)
  | .ok _ =>
  match get_or_create_repository s name with
  | (.error e, s1) => (.error e, s1)
  | (.ok repo, s1) =>
  let upload_uuid := s1.next_id
  if insertAccepted "upload_sessions" uploadSessionsInsertCols none then
    if s1.upload_sessions.any (fun u => u.uuid == upload_uuid) then
      (.error (Error.Database
        "error returned from database: UNIQUE constraint failed: upload_sessions.uuid"), s1)
    else
      let row : UploadSession :=
        { id := s1.next_id + 1, uuid := upload_uuid, repository_id := repo.id,
          uploaded_size := 0, storage_path := "uploads/" ++ toString upload_uuid,
          expires_at := s1.now + 86400 }
      let s2 := { s1 with upload_sessions := s1.upload_sessions ++ [row],
                          next_id := s1.next_id + 2 }
      (.ok { status := 202,
             headers := [("Docker-Upload-UUID", toString upload_uuid),
                         ("Location", "/v2/" ++ name ++ "/blobs/uploads/" ++ toString upload_uuid),
                         ("Range", "0-0")],
             body := .empty }, s2)
  else (.error (Error.Database "upload_sessions insert rejected"), s1)

/-- `registry::complete_blob_upload` (`PUT /v2/:name/blobs/uploads/:uuid`):
validate the name and the `digest` query parameter, fetch the session, hash
the request body, and on digest mismatch return 400 `Bad request` before any
write — the session row, the scratch and the store are untouched.  On a match
the blob is stored, a `blobs` row and a `repository_blobs` edge are inserted,
and the session row is deleted. -/
def complete_blob_upload (s : RegState) (name : String) (uuid : Nat)
    (digestParam : Option String) (body : List Nat) :
    Except Error HttpResponse × RegState :=
  match validate_repository_name name with
  | .error e => (.error e, s)
  | .ok _ =>
  match digestParam with
  | none => (.error (Error.BadRequest "Missing digest parameter"), s)
  | some expected_digest =>
  match validate_digest expected_digest with
  | .error e => (.error e, s)
  | .ok _ =>
  match get_upload_session s uuid with
  | .error e => (.error e, s)
  | .ok upload_session =>
  let calculated_digest := sha256_digest body
  if calculated_digest ≠ expected_digest then
    (.error (Error.BadRequest ("Digest mismatch: expected " ++ expected_digest ++
                               ", got " ++ calculated_digest)), s)
  else
  match storagePutBlob s expected_digest body with
  | .error e => (.error e, s)
  | .ok s1 =>
  if insertAccepted "blobs" blobsInsertCols none then
    if s1.blobs.any (fun b => b.digest == expected_digest) then
      (.error (Error.Database
        "error returned from database: UNIQUE constraint failed: blobs.digest"), s1)
    else
      let blob_id := s1.next_id
      let blobRow : Blob :=
        { id := blob_id, digest := expected_digest,
          media_type := "application/octet-stream", size := (body.length : Int),
          storage_path := "blobs/" ++ expected_digest }
      let s2 := { s1 with blobs := s1.blobs ++ [blobRow], next_id := s1.next_id + 1 }
      if insertAccepted "repository_blobs" repositoryBlobsInsertCols none then
        if s2.repository_blobs.any (fun rb =>
            rb.repository_id == upload_session.repository_id && rb.blob_id == blob_id) then
          (.error (Error.Database
            "error returned from database: UNIQUE constraint failed: repository_blobs"), s2)
        else
          let edgeRow : RepositoryBlob :=
            { id := s2.next_id, repository_id := upload_session.repository_id,
              blob_id := blob_id }
          let s3 := { s2 with repository_blobs := s2.repository_blobs ++ [edgeRow],
                              next_id := s2.next_id + 1 }
          match cleanup_upload_session s3 uuid with
          | (.error e, s4) => (.error e, s4)
          | (.ok _, s4) =>
              (.ok { status := 201,
                     headers := [("Docker-Content-Digest", expected_digest),
                                 ("Location", "/v2/" ++ name ++ "/blobs/" ++ expected_digest)],
                     body := .empty }, s4)
      else (.error (Error.Database "repository_blobs insert rejected"), s2)
  else (.error (Error.Database "blobs insert rejected"), s1)

/-- `registry::upload_blob_chunk` (`PATCH /v2/:name/blobs/uploads/:uuid`):
the handler body is a `TODO` — it logs a warning and unconditionally returns
`Error::registry("Chunked upload not yet implemented")`, ignoring the
request body and the state. -/
def upload_blob_chunk (s : RegState) (_name : String) (_uuid : Nat) :
    Except Error HttpResponse × RegState :=
  (.error (Error.Registry "Chunked upload not yet implemented"), s)

/-- `registry::get_upload_status` (`GET /v2/:name/blobs/uploads/:uuid`):
validate, fetch the unexpired session, answer 204 with
`Range: 0-{uploaded_size}` — the raw `uploaded_size`, not `uploaded_size - 1`. -/
def get_upload_status (s : RegState) (name : String) (uuid : Nat) :
    Except Error HttpResponse × RegState :=
  match validate_repository_name name with
  | .error e => (.error e, s)
  | .ok _ =>
  match get_upload_session s uuid with
  | .error e => (.error e, s)
  | .ok upload_session =>
      (.ok { status := 204,
             headers := [("Docker-Upload-UUID", toString uuid),
                         ("Range", "0-" ++ toString upload_session.uploaded_size)],
             body := .empty }, s)

/- ## `src/handlers/manifest.rs`: manifest handlers -/

/-- Whether a manifest reference is digest-shaped, as the handlers test it:
`reference.starts_with("sha256:")`. -/
def startsWithSha256 (r : String) : Bool :=
  match r.data with
  | 's' :: 'h' :: 'a' :: '2' :: '5' :: '6' :: ':' :: _ => true
  | _ => false

/-- `manifest::validate_manifest_structure`: for the v2 image media type
require `config` and an array `layers`; for the manifest-list media type
require an array `manifests`; any other media type only logs a warning. -/
def validate_manifest_structure (manifest : Json) : Except Error Unit :=
  let media_type := ((manifest.getField "mediaType").bind Json.asStr).getD
      "application/vnd.docker.distribution.manifest.v2+json"
  if media_type = "application/vnd.docker.distribution.manifest.v2+json" then
    if !(manifest.getField "config").isSome then
      .error (Error.BadRequest "Missing config in image manifest")
    else if !((manifest.getField "layers").bind Json.asArray).isSome then
      .error (Error.BadRequest "Missing or invalid layers in image manifest")
    else .ok ()
  else if media_type = "application/vnd.docker.distribution.manifest.list.v2+json" then
    if !((manifest.getField "manifests").bind Json.asArray).isSome then
      .error (Error.BadRequest "Missing or invalid manifests in manifest list")
    else .ok ()
  else .ok ()

/-- `manifest::link_manifest_to_blob`: look the blob up globally by digest
(`SELECT id FROM blobs WHERE digest = ?`).  When no blob exists the function
only logs a warning and succeeds — a missing referenced blob does NOT fail
the manifest PUT.  When a blob is found, the INSERT targets the
`manifest_blobs` table, which `create_tables` never creates, so SQLite
rejects the statement. -/
def link_manifest_to_blob (s : RegState) (manifest_id : Nat) (blob_digest : String) :
    Except Error Unit × RegState :=
  match s.blobs.find? (fun b => b.digest == blob_digest) with
  | some blob =>
      if insertAccepted "manifest_blobs" manifestBlobsInsertCols none then
        let row : ManifestBlob := { id := s.next_id, manifest_id := manifest_id, blob_id := blob.id }
        (.ok (), { s with manifest_blobs := s.manifest_blobs ++ [row], next_id := s.next_id + 1 })
      else
        (.error (Error.Database "error returned from database: no such table: manifest_blobs"), s)
  | none => (.ok (), s)

/-- Loop of `put_manifest` over `layers[]`: link each layer digest that is a
string, skipping layers without one. -/
def linkLayers (s : RegState) (manifest_id : Nat) :
    List Json → Except Error Unit × RegState
  | [] => (.ok (), s)
  | layer :: rest =>
      match (layer.getField "digest").bind Json.asStr with
      | some d =>
          match link_manifest_to_blob s manifest_id d with
          | (.error e, s2) => (.error e, s2)
          | (.ok _, s2) => linkLayers s2 manifest_id rest
      | none => linkLayers s manifest_id rest

/-- `manifest::get_manifest` (`GET /v2/:name/manifests/:reference`): validate,
require the repository, resolve the reference as digest or tag, re-parse the
stored content (500 on parse failure), and answer 200 with the stored bytes
and the `Docker-Content-Digest` of the stored row. -/
def get_manifest (s : RegState) (name reference : String) :
    Except Error HttpResponse × RegState :=
  match validate_repository_name name with
  | .error e => (.error e, s)
  | .ok _ =>
  match get_repository_by_name s name with
  | .error e => (.error e, s)
  | .ok repo =>
  match
    (if startsWithSha256 reference then
      match validate_digest reference with
      | .error e => Except.error e
      | .ok _ => get_manifest_by_digest s repo.id reference
    else
      match validate_tag_name reference with
      | .error e => Except.error e
      | .ok _ => get_manifest_by_tag s repo.id reference) with
  | .error e => (.error e, s)
  | .ok manifest =>
  match parseJson manifest.content with
  | none => (.error (Error.Internal "Invalid manifest JSON"), s)
  | some _ =>
      (.ok { status := 200,
             headers := [("content-type", manifest.media_type),
                         ("Docker-Content-Digest", manifest.digest),
                         ("content-length", toString (utf8Length manifest.content))],
             body := .text manifest.content }, s)

/-- `manifest::put_manifest` (`PUT /v2/:name/manifests/:reference`): validate
the name, get-or-create the repository, hash and parse the body, validate the
structure, then INSERT the `manifests` row with
`ON CONFLICT (repository_id, digest) DO UPDATE`.  Because the INSERT omits
the NOT NULL `schema_version` column and its conflict target matches no
uniqueness constraint of `manifests` (only `id` and `digest` are unique),
SQLite rejects the statement and every manifest PUT fails with a database
error; the tag upsert, the blob linking and the 201 response are dead code,
transcribed nonetheless. -/
def put_manifest (s : RegState) (name reference : String) (body : String) :
    Except Error HttpResponse × RegState :=
  match validate_repository_name name with
  | .error e => (.error e, s)
  | .ok _ =>
  match get_or_create_repository s name with
  | (.error e, s1) => (.error e, s1)
  | (.ok repo, s1) =>
  let manifest_content := body
  let calculated_digest := sha256_digest (utf8Encode manifest_content)
  match parseJson manifest_content with
  | none => (.error (Error.BadRequest "Invalid JSON manifest"), s1)
  | some manifest_json =>
  let media_type := ((manifest_json.getField "mediaType").bind Json.asStr).getD
      "application/vnd.docker.distribution.manifest.v2+json"
  match validate_manifest_structure manifest_json with
  | .error e => (.error e, s1)
  | .ok _ =>
  if insertAccepted "manifests" manifestsInsertCols (some manifestsConflictTarget) then
    let manifest_id := s1.next_id
    let updatedManifests :=
      s1.manifests.map (fun m =>
        if m.repository_id == repo.id && m.digest == calculated_digest then
          { m with media_type := media_type, content := manifest_content,
                   size := (utf8Length manifest_content : Int) }
        else m)
    let newManifestRow : Manifest :=
      { id := manifest_id, repository_id := repo.id, digest := calculated_digest,
        media_type := media_type, content := manifest_content,
        size := (utf8Length manifest_content : Int) }
    let s2 :=
      if s1.manifests.any (fun m => m.repository_id == repo.id &&
                                    m.digest == calculated_digest) then
        { s1 with manifests := updatedManifests, next_id := s1.next_id + 1 }
      else
        { s1 with manifests := s1.manifests ++ [newManifestRow], next_id := s1.next_id + 1 }
    let updatedTags :=
      s2.tags.map (fun t =>
        if t.repository_id == repo.id && t.name == reference then
          { t with manifest_id := manifest_id }
        else t)
    let newTagRow : Tag :=
      { id := s2.next_id, repository_id := repo.id, name := reference,
        manifest_id := manifest_id }
    match
      (if !(startsWithSha256 reference) then
        match validate_tag_name reference with
        | .error e => (Except.error e, s2)
        | .ok _ =>
          if insertAccepted "tags" tagsInsertCols (some tagsConflictTarget) then
            if s2.tags.any (fun t => t.repository_id == repo.id && t.name == reference) then
              (Except.ok (), { s2 with tags := updatedTags, next_id := s2.next_id + 1 })
            else
              (Except.ok (), { s2 with tags := s2.tags ++ [newTagRow],
                                       next_id := s2.next_id + 1 })
          else (Except.error (Error.Database "tags insert rejected"), s2)
      else (Except.ok (), s2)) with
  | (.error e, s3) => (.error e, s3)
  | (.ok _, s3) =>
  match
    (match (manifest_json.getField "config").bind
        (fun c => (c.getField "digest").bind Json.asStr) with
     | some d => link_manifest_to_blob s3 manifest_id d
     | none => (Except.ok (), s3)) with
  | (.error e, s4) => (.error e, s4)
  | (.ok _, s4) =>
  match
    (match (manifest_json.getField "layers").bind Json.asArray with
     | some layers => linkLayers s4 manifest_id layers
     | none => (Except.ok (), s4)) with
  | (.error e, s5) => (.error e, s5)
  | (.ok _, s5) =>
      (.ok { status := 201,
             headers := [("Docker-Content-Digest", calculated_digest),
                         ("Location", "/v2/" ++ name ++ "/manifests/" ++ calculated_digest)],
             body := .empty }, s5)
  else
    (.error (Error.Database
      "error returned from database: ON CONFLICT clause does not match any PRIMARY KEY or UNIQUE constraint"), s1)

/- ## Concrete example data for witnesses and counterexamples -/

/-- The registry state of a freshly migrated server: all tables empty. -/
def exEmptyState : RegState :=
  { repositories := [], blobs := [], repository_blobs := [], manifests := [], tags := [],
    manifest_blobs := [], upload_sessions := [], storage := [], now := 0, next_id := 10 }

/-- A `demo` repository row. -/
def exRepoDemo : Repository := { id := 1, name := "demo", description := "", is_public := false }

/-- An `other` repository row. -/
def exRepoOther : Repository := { id := 2, name := "other", description := "", is_public := false }

/-- A well-formed lowercase digest (64 times `a`). -/
def exDigestA : String := "sha256:" ++ String.mk (List.replicate 64 'a')

/-- A well-formed lowercase digest (64 times `0`). -/
def exDigestZeros : String := "sha256:" ++ String.mk (List.replicate 64 '0')

/-- A digest whose hash part is uppercase (64 times `A`). -/
def exDigestUpper : String := "sha256:" ++ String.mk (List.replicate 64 'A')

/-- A blob row carrying `exDigestA`. -/
def exBlobA : Blob :=
  { id := 3, digest := exDigestA, media_type := "application/octet-stream", size := 3,
    storage_path := "blobs/x" }

/-- Membership edge linking `demo` to `exBlobA`. -/
def exEdgeDemo : RepositoryBlob := { id := 4, repository_id := 1, blob_id := 3 }

/-- Membership edge linking `other` to `exBlobA`. -/
def exEdgeOther : RepositoryBlob := { id := 5, repository_id := 2, blob_id := 3 }

/-- A state in which `demo` and `other` share the single blob `exBlobA`
(deduplication), with its bytes in the Content Store. -/
def exStateShared : RegState :=
  { repositories := [exRepoDemo, exRepoOther], blobs := [exBlobA],
    repository_blobs := [exEdgeDemo, exEdgeOther], manifests := [], tags := [],
    manifest_blobs := [], upload_sessions := [], storage := [(exDigestA, [1, 2, 3])],
    now := 0, next_id := 10 }

/-- A state holding bytes for `exDigestA` in the Content Store but no blob
row and no membership edge at all. -/
def exStateStorageOnly : RegState :=
  { exEmptyState with storage := [(exDigestA, [1, 2, 3])] }

/-- A state holding only the `demo` repository row. -/
def exStateRepoOnly : RegState := { exEmptyState with repositories := [exRepoDemo] }

/-- An open upload session with one uploaded byte. -/
def exSession : UploadSession :=
  { id := 6, uuid := 7, repository_id := 1, uploaded_size := 1,
    storage_path := "uploads/7", expires_at := 100 }

/-- A state with the `demo` repository and the open session `exSession`. -/
def exStateSession : RegState :=
  { exStateRepoOnly with upload_sessions := [exSession] }

/-- A v2 image manifest body referencing `exDigestA` as its config digest,
with no layers. -/
def exManifestBody : String :=
  "\x7b\"config\":\x7b\"digest\":\"" ++ exDigestA ++ "\"\x7d,\"layers\":[]\x7d"

/-- The parsed form of `exManifestBody`. -/
def exManifestJson : Json :=
  Json.obj [("config", Json.obj [("digest", Json.str exDigestA)]),
            ("layers", Json.arr [])]

/-- The 20 `error_code` strings of the `Error` enum. -/
def ghostdockErrorCodes : List String :=
  ["DATABASE_ERROR", "IO_ERROR", "SERIALIZATION_ERROR", "CONFIG_ERROR",
   "AUTHENTICATION_ERROR", "AUTHORIZATION_ERROR", "VALIDATION_ERROR", "REGISTRY_ERROR",
   "STORAGE_ERROR", "MANIFEST_ERROR", "BLOB_ERROR", "NOT_FOUND", "CONFLICT",
   "INTERNAL_ERROR", "BAD_REQUEST", "SERVICE_UNAVAILABLE", "JWT_ERROR",
   "HTTP_CLIENT_ERROR", "TOML_ERROR", "GENERIC_ERROR"]

/-- Modelled from the spec: the fixed registry v2 error code set of spec §6,
used only to compare the implementation codes against the claim. -/
def registryV2ErrorCodes : List String :=
  ["BLOB_UNKNOWN", "BLOB_UPLOAD_INVALID", "BLOB_UPLOAD_UNKNOWN", "DIGEST_INVALID",
   "MANIFEST_BLOB_UNKNOWN", "MANIFEST_INVALID", "MANIFEST_UNKNOWN", "NAME_INVALID",
   "NAME_UNKNOWN", "SIZE_INVALID", "TAG_INVALID", "UNAUTHORIZED", "DENIED",
   "UNSUPPORTED", "RANGE_INVALID"]

/- ## Helper lemmas -/

/-- SQLite rejects the `repositories` INSERT of `get_or_create_repository`:
the NOT NULL `owner_id` column is not assigned. -/
theorem repositories_insert_rejected :
    insertAccepted "repositories" repositoriesInsertCols none = false := by decide

/-- SQLite rejects the `manifests` INSERT of `put_manifest`: `schema_version`
is not assigned and the conflict target `(repository_id, digest)` matches no
uniqueness constraint. -/
theorem manifests_insert_rejected :
    insertAccepted "manifests" manifestsInsertCols (some manifestsConflictTarget) = false := by
  decide

/-- The `manifest_blobs` INSERT of `link_manifest_to_blob` targets a table
that `create_tables` never creates. -/
theorem manifest_blobs_insert_rejected :
    insertAccepted "manifest_blobs" manifestBlobsInsertCols none = false := by decide

/-- `get_or_create_repository` either finds the row or fails: the create
branch is unreachable because SQLite rejects its INSERT. -/
theorem get_or_create_repository_spec (s : RegState) (name : String) :
    get_or_create_repository s name =
      (match get_repository_by_name s name with
       | .ok repo => (Except.ok repo, s)
       | .error _ =>
         (Except.error (Error.Database
           "error returned from database: NOT NULL constraint failed: repositories.owner_id"),
          s)) := by
  unfold get_or_create_repository
  cases get_repository_by_name s name <;> simp [repositories_insert_rejected]

/-- `hexDigitChar` of a nibble is a lowercase hex character. -/
theorem hexDigitChar_mod16_lower (n : Nat) :
    isLowerHexChar (hexDigitChar (n % 16)) = true := by
  have h : n % 16 < 16 := Nat.mod_lt _ (by norm_num)
  revert h
  generalize n % 16 = m
  intro h
  interval_cases m <;> decide

/-- Both characters of a byte's hex rendering are lowercase hex. -/
theorem byteHexChars_lower (b : Nat) :
    (byteHexChars b).all isLowerHexChar = true := by
  simp only [byteHexChars, List.all_cons, List.all_nil, Bool.and_true]
  have h1 := hexDigitChar_mod16_lower (b / 16)
  have h2 := hexDigitChar_mod16_lower b
  simp [h1, h2]

/-- Every character of a byte sequence's hex rendering is lowercase hex. -/
theorem bytesHexChars_lower (bs : List Nat) :
    (bytesHexChars bs).all isLowerHexChar = true := by
  induction bs with
  | nil => decide
  | cons b rest ih =>
      simp only [bytesHexChars, List.flatMap_cons, List.all_append]
      have h1 := byteHexChars_lower b
      simp only [bytesHexChars] at ih
      simp [h1, ih]

/-- The hex rendering is two characters per byte. -/
theorem bytesHexChars_length (bs : List Nat) :
    (bytesHexChars bs).length = 2 * bs.length := by
  induction bs with
  | nil => decide
  | cons b rest ih =>
      simp only [bytesHexChars, List.flatMap_cons, List.length_append] at *
      simp [byteHexChars, ih]
      omega

/-- SHA-256 always yields 32 bytes. -/
theorem sha256_length (msg : List Nat) : (sha256 msg).length = 32 := by
  simp [sha256, wordBytes]

/-- Lowercase hex characters are ASCII hex digits. -/
theorem lowerHex_is_asciiHex (c : Char) :
    isLowerHexChar c = true → isAsciiHexdigitChar c = true := by
  simp only [isLowerHexChar, isAsciiHexdigitChar, Bool.or_eq_true, Bool.and_eq_true,
             decide_eq_true_eq]
  tauto

/-- The character data of an appended string. -/
theorem string_data_append (a b : String) : (a ++ b).data = a.data ++ b.data := rfl

/-- Reduction of `validate_digest` on a string with the `sha256:` head: the
checks apply to the remaining characters. -/
theorem validate_digest_eq (s : String) :
    validate_digest ("sha256:" ++ s) =
      (if s.data.length ≠ 64 then
        Except.error (Error.BadRequest "Invalid digest: hash must be 64 characters")
      else if (!s.data.all isAsciiHexdigitChar) = true then
        Except.error (Error.BadRequest "Invalid digest: hash must contain only hexadecimal characters")
      else Except.ok ()) := by
  have hdata : ("sha256:" ++ s).data =
      's' :: 'h' :: 'a' :: '2' :: '5' :: '6' :: ':' :: s.data := by
    rw [string_data_append]
    rfl
  unfold validate_digest
  rw [hdata]
  rfl

/- ## Claim C4 -/

/-- Claim C4 (code bug): the chunked upload sequence can never succeed.  The
`PATCH` handler `upload_blob_chunk` is an unimplemented TODO: for every state,
repository name and upload id it returns `Error::registry("Chunked upload not
yet implemented")`, a 400 response, and leaves the state unchanged, so no
chunked sequence ever reaches its `PUT` and the claimed equivalence with the
single-shot upload cannot hold. -/
theorem c4_upload_blob_chunk_always_fails (s : RegState) (name : String) (uuid : Nat) :
    upload_blob_chunk s name uuid =
      (Except.error (Error.Registry "Chunked upload not yet implemented"), s) ∧
    (Error.Registry "Chunked upload not yet implemented").status_code = 400 :=
  ⟨rfl, rfl⟩

/- ## Claim C9 -/

/-- Claim C9 (counterexample): `validate_digest` accepts a digest whose hash
part is 64 uppercase `A` characters, although the claim requires every
uppercase hash to be rejected — `is_ascii_hexdigit` accepts both cases. -/
theorem c9_validate_digest_accepts_uppercase :
    validate_digest exDigestUpper = Except.ok () := by decide

/-- Claim C9 (amended): `validate_digest ("sha256:" ++ s)` succeeds exactly
when `s` is 64 characters all of which are ASCII hex digits of either case —
the accepted language is `^sha256:[0-9a-fA-F]{64}$`, not the all-lowercase
`^sha256:[0-9a-f]{64}$` of the claim. -/
theorem c9_validate_digest_accepts_iff (s : String) :
    validate_digest ("sha256:" ++ s) = Except.ok () ↔
      (s.data.length = 64 ∧ s.data.all isAsciiHexdigitChar = true) := by
  rw [validate_digest_eq]
  by_cases h1 : s.data.length = 64
  · rw [if_neg (fun hne => hne h1)]
    by_cases h2 : s.data.all isAsciiHexdigitChar = true
    · rw [h2]
      simp [h1, h2]
    · have h2f : s.data.all isAsciiHexdigitChar = false := by
        cases hv : s.data.all isAsciiHexdigitChar
        · rfl
        · exact absurd hv h2
      rw [h2f]
      constructor
      · intro hc
        rw [if_pos (show (!false) = true from rfl)] at hc
        exact Except.noConfusion hc
      · rintro ⟨_, hall⟩
        exact absurd hall (by decide)
  · rw [if_pos h1]
    constructor
    · intro hc
      exact Except.noConfusion hc
    · rintro ⟨hl, _⟩
      exact absurd hl h1

/-- Claim C9 (witness): the amended characterization applied to the all-zeros
hash part. -/
theorem c9_validate_digest_accepts_iff_witness :
    validate_digest ("sha256:" ++ String.mk (List.replicate 64 '0')) = Except.ok () :=
  (c9_validate_digest_accepts_iff (String.mk (List.replicate 64 '0'))).mpr (by decide)

/- ## Claim C10 -/

/-- Claim C10 (confirmed): for every byte sequence, `sha256_digest` returns
`"sha256:"` followed by exactly 64 lowercase hexadecimal characters encoding
the SHA-256 of the input, and `validate_digest` accepts the result. -/
theorem c10_sha256_digest_wellformed (data : List Nat) :
    sha256_digest data = "sha256:" ++ bytesToHex (sha256 data) ∧
    (bytesHexChars (sha256 data)).length = 64 ∧
    (bytesHexChars (sha256 data)).all isLowerHexChar = true ∧
    validate_digest (sha256_digest data) = Except.ok () := by
  have hlen : (bytesHexChars (sha256 data)).length = 64 := by
    rw [bytesHexChars_length, sha256_length]
  have hlower := bytesHexChars_lower (sha256 data)
  have hascii : (bytesHexChars (sha256 data)).all isAsciiHexdigitChar = true := by
    rw [List.all_eq_true] at hlower ⊢
    intro c hc
    exact lowerHex_is_asciiHex c (hlower c hc)
  refine ⟨rfl, hlen, hlower, ?_⟩
  have hrw : sha256_digest data = "sha256:" ++ bytesToHex (sha256 data) := rfl
  have hchars : (bytesToHex (sha256 data)).data = bytesHexChars (sha256 data) := rfl
  rw [hrw, validate_digest_eq, hchars, hlen, hascii]
  simp

/- ## Claim C2 -/

/-- Claim C2 (counterexample): the error produced by `get_blob` for a missing
blob renders as status 404 with body `{"error": {"code": "NOT_FOUND", ...}}`:
a single top-level `error` object — there is no `errors` array, no `detail`
field, and the code `NOT_FOUND` is not in the registry v2 code set. -/
theorem c2_error_body_not_v2_envelope :
    (get_blob exEmptyState "demo" exDigestZeros).1 =
      Except.error (Error.NotFound ("blob " ++ exDigestZeros)) ∧
    (Error.into_response (Error.NotFound ("blob " ++ exDigestZeros))).1 = 404 ∧
    ((Error.into_response (Error.NotFound ("blob " ++ exDigestZeros))).2.getField
      "errors").isSome = false ∧
    (((Error.into_response (Error.NotFound ("blob " ++ exDigestZeros))).2.getField
      "error").bind (fun j => (j.getField "code").bind Json.asStr)) = some "NOT_FOUND" ∧
    registryV2ErrorCodes.contains "NOT_FOUND" = false := by
  refine ⟨by decide, rfl, rfl, rfl, by decide⟩

/-- Claim C2 (amended): every error response of the registry carries a 4xx or
5xx status and the body `{"error": {"code": C, "message": M}}` — a single
`error` object rather than the registry v2 `errors` array envelope — where
`C` is one of the 20 implementation codes (`DATABASE_ERROR`, `NOT_FOUND`,
`BAD_REQUEST`, ...), none of which belongs to the fixed registry v2 code set. -/
theorem c2_error_responses_single_error_object (e : Error) :
    Error.into_response e =
      (e.status_code,
       Json.obj [("error", Json.obj [("code", Json.str e.error_code),
                                     ("message", Json.str e.display)])]) ∧
    400 ≤ e.status_code ∧ e.status_code ≤ 503 ∧
    ((Error.into_response e).2.getField "errors").isSome = false ∧
    e.error_code ∈ ghostdockErrorCodes ∧
    e.error_code ∉ registryV2ErrorCodes := by
  refine ⟨rfl, ?_, ?_, rfl, ?_, ?_⟩ <;> cases e <;>
    simp [Error.status_code, Error.error_code, ghostdockErrorCodes, registryV2ErrorCodes]

/- ## Claim C5 -/

/-- Claim C5 (confirmed): finalizing an open upload session with a digest
parameter that does not match the hash of the request body returns the 400
`Bad request` digest-mismatch error and leaves the whole state unchanged —
no bytes stored, no `blobs` row, no `repository_blobs` edge, and the session
row still present and queryable. -/
theorem c5_digest_mismatch_preserves_state (s : RegState) (name : String) (uuid : Nat)
    (expected : String) (body : List Nat) (sess : UploadSession)
    (hname : validate_repository_name name = Except.ok ())
    (hdig : validate_digest expected = Except.ok ())
    (hsess : get_upload_session s uuid = Except.ok sess)
    (hmism : sha256_digest body ≠ expected) :
    complete_blob_upload s name uuid (some expected) body =
      (Except.error (Error.BadRequest ("Digest mismatch: expected " ++ expected ++
                                       ", got " ++ sha256_digest body)), s) ∧
    (Error.BadRequest ("Digest mismatch: expected " ++ expected ++
                       ", got " ++ sha256_digest body)).status_code = 400 := by
  constructor
  · unfold complete_blob_upload
    simp only [hname, hdig, hsess]
    rw [if_pos hmism]
  · rfl

set_option maxRecDepth 100000 in
/-- Claim C5 (witness): finalizing the open session of `exStateSession` with
the all-zeros digest and the one-byte body `[97]` fails with the mismatch
error and preserves the state. -/
theorem c5_digest_mismatch_preserves_state_witness :
    complete_blob_upload exStateSession "demo" 7 (some exDigestZeros) [97] =
      (Except.error (Error.BadRequest ("Digest mismatch: expected " ++ exDigestZeros ++
                                       ", got " ++ sha256_digest [97])), exStateSession) :=
  (c5_digest_mismatch_preserves_state exStateSession "demo" 7 exDigestZeros [97] exSession
    (by decide) (by decide) (by decide) (by decide)).1

/- ## Claim C8 -/

/-- Claim C8 (counterexample): for the open session with `uploadedSize = 1`
the status endpoint answers 204 with `Range: 0-1`, not the inclusive
high-water `0-0` the claim requires for `n = 1`. -/
theorem c8_upload_status_range_off_by_one :
    (get_upload_status exStateSession "demo" 7).1 =
      Except.ok { status := 204,
                  headers := [("Docker-Upload-UUID", "7"), ("Range", "0-1")],
                  body := .empty } ∧
    some "0-1" ≠ some "0-0" := by
  constructor
  · decide
  · decide

/-- Claim C8 (amended): for every open session the status endpoint answers
204 with `Range: 0-{uploadedSize}` — the raw uploaded size as the upper
bound, one past the inclusive high-water byte — which coincides with the
claimed `0-0` only for the empty session. -/
theorem c8_upload_status_range_is_uploaded_size (s : RegState) (name : String)
    (uuid : Nat) (sess : UploadSession)
    (hname : validate_repository_name name = Except.ok ())
    (hsess : get_upload_session s uuid = Except.ok sess) :
    get_upload_status s name uuid =
      (Except.ok { status := 204,
                   headers := [("Docker-Upload-UUID", toString uuid),
                               ("Range", "0-" ++ toString sess.uploaded_size)],
                   body := .empty }, s) := by
  unfold get_upload_status
  simp only [hname, hsess]

/-- Claim C8 (witness): the amended statement applied to the session with
one uploaded byte. -/
theorem c8_upload_status_range_is_uploaded_size_witness :
    get_upload_status exStateSession "demo" 7 =
      (Except.ok { status := 204,
                   headers := [("Docker-Upload-UUID", toString 7),
                               ("Range", "0-" ++ toString exSession.uploaded_size)],
                   body := .empty }, exStateSession) :=
  c8_upload_status_range_is_uploaded_size exStateSession "demo" 7 exSession
    (by decide) (by decide)

/- ## Claim C6 -/

/-- Claim C6 (counterexample): with bytes for `exDigestA` in the Content
Store but not a single `repository_blobs` edge (indeed not even a blob row
or a repository row), `GET /v2/demo/blobs/exDigestA` still answers 200 with
the bytes, while `HEAD` on the same digest with the repository present
answers `NotFound`. -/
theorem c6_get_blob_200_without_membership_edge :
    exStateStorageOnly.repository_blobs = [] ∧
    exStateStorageOnly.blobs = [] ∧
    (get_blob exStateStorageOnly "demo" exDigestA).1 =
      Except.ok { status := 200,
                  headers := [("content-type", "application/octet-stream"),
                              ("docker-content-digest", exDigestA),
                              ("content-length", "3")],
                  body := .bytes [1, 2, 3] } ∧
    (head_blob { exStateStorageOnly with repositories := [exRepoDemo] } "demo" exDigestA).1 =
      Except.error (Error.NotFound ("Blob \x27" ++ exDigestA ++ "\x27 not found")) := by
  refine ⟨rfl, rfl, by decide, by decide⟩

/-- Claim C6 (amended): `GET` blob never consults the membership edges — its
result is invariant under replacing the `repository_blobs` table — and
returns 200 exactly when the Content Store holds bytes for the digest, while
only `HEAD` requires the repository row and the blob joined through a
`repository_blobs` edge, answering `NotFound` (404) when the join is empty. -/
theorem c6_get_blob_ignores_edges_head_blob_requires_them :
    (∀ (s : RegState) (rbs : List RepositoryBlob) (name digest : String),
       (get_blob { s with repository_blobs := rbs } name digest).1 =
         (get_blob s name digest).1) ∧
    (∀ (s : RegState) (name digest : String) (data : List Nat),
       validate_repository_name name = Except.ok () →
       validate_digest digest = Except.ok () →
       storageGetBlob s digest = some data →
       (get_blob s name digest).1 =
         Except.ok { status := 200,
                     headers := [("content-type", "application/octet-stream"),
                                 ("docker-content-digest", digest),
                                 ("content-length", toString data.length)],
                     body := .bytes data }) ∧
    (∀ (s : RegState) (name digest : String) (repo : Repository),
       validate_repository_name name = Except.ok () →
       validate_digest digest = Except.ok () →
       get_repository_by_name s name = Except.ok repo →
       get_blob_by_digest s repo.id digest =
         Except.error (Error.NotFound ("Blob \x27" ++ digest ++ "\x27 not found")) →
       (head_blob s name digest).1 =
         Except.error (Error.NotFound ("Blob \x27" ++ digest ++ "\x27 not found"))) := by
  refine ⟨?_, ?_, ?_⟩
  · intro s rbs name digest
    unfold get_blob
    cases hv : validate_repository_name name with
    | error e => rfl
    | ok u =>
      cases hd : validate_digest digest with
      | error e => rfl
      | ok u2 =>
        have hst : storageGetBlob { s with repository_blobs := rbs } digest =
            storageGetBlob s digest := rfl
        rw [hst]
        cases hb : storageGetBlob s digest with
        | none => rfl
        | some data => rfl
  · intro s name digest data hname hdig hstore
    unfold get_blob
    simp only [hname, hdig, hstore]
  · intro s name digest repo hname hdig hrepo hjoin
    unfold head_blob
    simp only [hname, hdig, hrepo, hjoin]

/-- Claim C6 (witness): the amended statement applied to concrete states —
the 200-from-store part on `exStateStorageOnly`, and the HEAD-404 part on the
same state with the `demo` repository row present. -/
theorem c6_get_blob_ignores_edges_witness :
    (get_blob exStateStorageOnly "demo" exDigestA).1 =
      Except.ok { status := 200,
                  headers := [("content-type", "application/octet-stream"),
                              ("docker-content-digest", exDigestA),
                              ("content-length", toString [1, 2, 3].length)],
                  body := .bytes [1, 2, 3] } ∧
    (head_blob { exStateStorageOnly with repositories := [exRepoDemo] } "demo" exDigestA).1 =
      Except.error (Error.NotFound ("Blob \x27" ++ exDigestA ++ "\x27 not found")) :=
  ⟨c6_get_blob_ignores_edges_head_blob_requires_them.2.1 exStateStorageOnly "demo" exDigestA
     [1, 2, 3] (by decide) (by decide) (by decide),
   c6_get_blob_ignores_edges_head_blob_requires_them.2.2
     { exStateStorageOnly with repositories := [exRepoDemo] } "demo" exDigestA exRepoDemo
     (by decide) (by decide) (by decide) (by decide)⟩

/- ## Claim C3 -/

/-- Claim C3 (counterexample): in `exStateShared` the blob is shared by the
repositories `demo` and `other`, yet `DELETE /v2/demo/blobs/exDigestA`
destroys the stored bytes anyway — the claim requires them to be preserved —
and then fails with 500 `DATABASE_ERROR` (the `DELETE FROM blobs` violates
the `repository_blobs` foreign key), answering neither 202 nor removing the
edge from `demo`. -/
theorem c3_delete_blob_shared_blob_500_bytes_destroyed :
    (delete_blob exStateShared "demo" exDigestA).1 =
      Except.error (Error.Database "error returned from database: FOREIGN KEY constraint failed") ∧
    (delete_blob exStateShared "demo" exDigestA).2.storage = [] ∧
    (delete_blob exStateShared "demo" exDigestA).2.blobs = [exBlobA] ∧
    (delete_blob exStateShared "demo" exDigestA).2.repository_blobs = [exEdgeDemo, exEdgeOther] ∧
    exEdgeOther.repository_id = exRepoOther.id ∧
    (Error.Database "error returned from database: FOREIGN KEY constraint failed").status_code = 500 := by
  refine ⟨by decide, by decide, by decide, by decide, rfl, rfl⟩

/-- Claim C3 (amended): once the repository and membership checks pass,
`DELETE /v2/R/blobs/d` first destroys the stored bytes, then its
`DELETE FROM blobs` statement violates the `repository_blobs` foreign key —
R's own membership edge, just required by `get_blob_by_digest`, still
references the row, and sqlx enables `PRAGMA foreign_keys` by default — so
the handler returns 500 `DATABASE_ERROR` with the `Blob` record and every
`RepositoryBlob` edge intact.  In particular a blob shared with another
repository loses its bytes anyway, and neither the record nor any edge is
removed; the claimed 202 reference-counting behaviour never happens. -/
theorem c3_delete_blob_destroys_bytes_then_fk_500 (s : RegState) (name digest : String)
    (repo : Repository) (blob : Blob)
    (hname : validate_repository_name name = Except.ok ())
    (hdig : validate_digest digest = Except.ok ())
    (hrepo : get_repository_by_name s name = Except.ok repo)
    (hblob : get_blob_by_digest s repo.id digest = Except.ok blob)
    (hstore : s.storage.any (fun e => e.1 == digest) = true) :
    delete_blob s name digest =
      (Except.error (Error.Database "error returned from database: FOREIGN KEY constraint failed"),
       { s with storage := s.storage.filter (fun e => e.1 != digest) }) ∧
    (Error.Database "error returned from database: FOREIGN KEY constraint failed").status_code
      = 500 := by
  have hedge : s.repository_blobs.any (fun rb => rb.blob_id == blob.id) = true := by
    unfold get_blob_by_digest at hblob
    cases hfind : s.blobs.find? (fun b => b.digest == digest &&
        s.repository_blobs.any (fun rb => rb.blob_id == b.id &&
                                          rb.repository_id == repo.id)) with
    | none => simp [hfind] at hblob
    | some b =>
        simp only [hfind] at hblob
        have hb : b = blob := Except.ok.inj hblob
        have hp := List.find?_some hfind
        rw [hb] at hp
        have h2 := ((Bool.and_eq_true _ _).mp hp).2
        rw [List.any_eq_true] at h2 ⊢
        obtain ⟨rb, hmem, hrb⟩ := h2
        exact ⟨rb, hmem, ((Bool.and_eq_true _ _).mp hrb).1⟩
  have hcontains : ghostdockForeignKeys.contains ("repository_blobs", "blob_id", "blobs")
      = true := by decide
  constructor
  · unfold delete_blob
    simp only [hname, hdig, hrepo, hblob]
    unfold storageDeleteBlob
    simp only [hstore, if_true]
    simp [hcontains, hedge]
    decide
  · rfl

/-- Claim C3 (witness): the amended statement applied to the shared-blob
state. -/
theorem c3_delete_blob_destroys_bytes_then_fk_500_witness :
    delete_blob exStateShared "demo" exDigestA =
      (Except.error (Error.Database "error returned from database: FOREIGN KEY constraint failed"),
       { exStateShared with
           storage := exStateShared.storage.filter (fun e => e.1 != exDigestA) }) :=
  (c3_delete_blob_destroys_bytes_then_fk_500 exStateShared "demo" exDigestA exRepoDemo exBlobA
    (by decide) (by decide) (by decide) (by decide) (by decide)).1

/- ## Claim C1 -/

set_option maxRecDepth 100000 in
/-- Claim C1 (counterexample): `PUT /v2/demo/manifests/v1` with a v2 image
manifest whose `config.digest` names a blob absent from `demo` is rejected
with 500 `DATABASE_ERROR` — not with 400 `MANIFEST_BLOB_UNKNOWN` as the
claim requires — because the `manifests` INSERT itself is invalid against
the schema; no manifest row, tag or manifest-blob link is persisted (the
state is unchanged). -/
theorem c1_put_manifest_missing_blob_not_manifest_blob_unknown :
    put_manifest exStateRepoOnly "demo" "v1" exManifestBody =
      (Except.error (Error.Database
        "error returned from database: ON CONFLICT clause does not match any PRIMARY KEY or UNIQUE constraint"),
       exStateRepoOnly) ∧
    (Error.Database
      "error returned from database: ON CONFLICT clause does not match any PRIMARY KEY or UNIQUE constraint").status_code
      = 500 ∧
    (Error.Database
      "error returned from database: ON CONFLICT clause does not match any PRIMARY KEY or UNIQUE constraint").status_code
      ≠ 400 ∧
    (Error.Database
      "error returned from database: ON CONFLICT clause does not match any PRIMARY KEY or UNIQUE constraint").error_code
      ≠ "MANIFEST_BLOB_UNKNOWN" ∧
    exStateRepoOnly.blobs.find? (fun b => b.digest == exDigestA) = none := by
  refine ⟨by decide, rfl, by decide, by decide, rfl⟩

/-- Claim C1 (amended): a manifest PUT whose body references a config digest
with no blob in the target repository is indeed rejected with nothing
persisted, but with 500 `DATABASE_ERROR` (the `manifests` INSERT omits the
NOT NULL `schema_version` and its `ON CONFLICT (repository_id, digest)`
target matches no uniqueness constraint), not 400 `MANIFEST_BLOB_UNKNOWN`;
the handler performs no referenced-blob check at all —
`link_manifest_to_blob` would merely log a warning for a missing blob. -/
theorem c1_put_manifest_missing_blob_rejected_500 (s : RegState)
    (name reference body : String) (repo : Repository) (j : Json) (d : String)
    (hname : validate_repository_name name = Except.ok ())
    (hrepo : get_repository_by_name s name = Except.ok repo)
    (hparse : parseJson body = some j)
    (hstruct : validate_manifest_structure j = Except.ok ())
    (hcfg : (j.getField "config").bind (fun c => (c.getField "digest").bind Json.asStr) = some d)
    (hnoblob : s.blobs.find? (fun b => b.digest == d) = none) :
    put_manifest s name reference body =
      (Except.error (Error.Database
        "error returned from database: ON CONFLICT clause does not match any PRIMARY KEY or UNIQUE constraint"), s) ∧
    (Error.Database
      "error returned from database: ON CONFLICT clause does not match any PRIMARY KEY or UNIQUE constraint").status_code
      = 500 ∧
    (Error.Database
      "error returned from database: ON CONFLICT clause does not match any PRIMARY KEY or UNIQUE constraint").error_code
      = "DATABASE_ERROR" := by
  refine ⟨?_, rfl, rfl⟩
  unfold put_manifest
  rw [get_or_create_repository_spec]
  simp only [hname, hrepo, hparse, hstruct, manifests_insert_rejected]
  simp

set_option maxRecDepth 100000 in
/-- Claim C1 (witness): the amended statement applied to the concrete state
holding only the `demo` repository and the concrete manifest body. -/
theorem c1_put_manifest_missing_blob_rejected_500_witness :
    put_manifest exStateRepoOnly "demo" "v1" exManifestBody =
      (Except.error (Error.Database
        "error returned from database: ON CONFLICT clause does not match any PRIMARY KEY or UNIQUE constraint"),
       exStateRepoOnly) :=
  (c1_put_manifest_missing_blob_rejected_500 exStateRepoOnly "demo" "v1" exManifestBody
    exRepoDemo exManifestJson exDigestA
    (by decide) (by decide) (by rfl) (by decide) (by rfl) (by rfl)).1

/- ## Claim C7 -/

/-- Claim C7 (code bug): the PUT-then-GET round trip is impossible because
`put_manifest` can never succeed: every run ends in an error — at worst the
always-rejected `manifests` INSERT (missing NOT NULL `schema_version`,
conflict target matching no uniqueness constraint) — and leaves the state
unchanged, so no `Docker-Content-Digest` is ever returned and no manifest is
ever retrievable. -/
theorem c7_put_manifest_never_succeeds (s : RegState) (name reference body : String) :
    (∃ e, (put_manifest s name reference body).1 = Except.error e) ∧
    (put_manifest s name reference body).2 = s := by
  unfold put_manifest
  rw [get_or_create_repository_spec]
  cases hname : validate_repository_name name with
  | error e => exact ⟨⟨e, rfl⟩, rfl⟩
  | ok u =>
    cases hrepo : get_repository_by_name s name with
    | error e2 => exact ⟨⟨_, rfl⟩, rfl⟩
    | ok repo =>
      cases hparse : parseJson body with
      | none =>
        constructor
        · exact ⟨Error.BadRequest "Invalid JSON manifest", by simp only [hparse]⟩
        · simp only [hparse]
      | some j =>
        cases hstruct : validate_manifest_structure j with
        | error e3 =>
          constructor
          · exact ⟨e3, by simp only [hparse, hstruct]⟩
          · simp only [hparse, hstruct]
        | ok u2 =>
          constructor
          · exact ⟨Error.Database
              "error returned from database: ON CONFLICT clause does not match any PRIMARY KEY or UNIQUE constraint",
              by simp [hparse, hstruct, manifests_insert_rejected]⟩
          · simp [hparse, hstruct, manifests_insert_rejected]

/-- Claim C7 (witness): the impossibility applied at a concrete PUT. -/
theorem c7_put_manifest_never_succeeds_witness :
    (put_manifest exStateRepoOnly "demo" "v1" exManifestBody).2 = exStateRepoOnly :=
  (c7_put_manifest_never_succeeds exStateRepoOnly "demo" "v1" exManifestBody).2
